import Mathlib

/-!
Verification of the architecture-review orchestration pipeline.

Shallow embedding of the repository's core control flow:
- `validate_document_structure` embeds the body of
  `StructureValidatorAgent.validate_document_structure`
  (src/agents/structure_validator_agent.py, lines 71-113): the handling of
  the raw evaluator response after the LLM call — markdown-fence stripping,
  `json.loads` outcome dispatch, report-text rendering, and the two
  fail-closed exception branches.
- `consolidate_all_reports` embeds
  `LeadReviewerAgent.consolidate_all_reports`
  (src/agents/lead_reviewer_agent.py, lines 29-63): the `report_details`
  assembly and the call to the generation service (modelled as a function
  parameter `gen`, since the LLM is an external collaborator).
- `main` embeds the orchestration control flow of `main` in main.py
  (configuration check, document-existence check, summarization,
  validation, `json.loads`, the critical-error handoff branch, the
  concurrent security review, and consolidation). External collaborators
  (summarizer, validator LLM, security reviewer, consolidator LLM) are
  inputs of the run environment; the run is described by the list of
  collaborator invocations (`Event`) plus the final report / failure.

Python dynamic-typing details are modelled explicitly: JSON values are the
inductive `Json` (integers stand in for JSON numbers; floats are out of
scope, no claim depends on numerics), Python truthiness is `jsonTruthy`,
`dict.get` is `getField`/`Option.getD`, f-string rendering of a value is
`pyStr` (Python `str()`, with `pyRepr` as `repr()` for nested values), and
a raised exception is an explicit failure outcome.
-/

namespace ArchReview

/-- JSON values as produced by Python's `json.loads`: objects are ordered
key/value lists (Python dicts preserve insertion order), numbers are
modelled as integers. -/
inductive Json where
  | null
  | bool (b : Bool)
  | num (n : Int)
  | str (s : String)
  | arr (elems : List Json)
  | obj (fields : List (String × Json))

/-- First binding of a key in an object's field list; models Python
`dict.__getitem__` / the lookup part of `dict.get` (parsed dicts have
unique keys, so first binding equals the dict entry). -/
def getField : List (String × Json) → String → Option Json
  | [], _ => none
  | (k, v) :: fs, key => if k = key then some v else getField fs key

/-- Models Python `dict[key] = value`: replaces the value in place when the
key is present, otherwise appends the binding at the end (insertion
order). -/
def setField : List (String × Json) → String → Json → List (String × Json)
  | [], key, v => [(key, v)]
  | (k, w) :: fs, key, v =>
      if k = key then (key, v) :: fs else (k, w) :: setField fs key v

/-- Python truthiness of a parsed JSON value (`if x:`): `None`, `False`,
`0`, `""`, `[]` and the empty dict are falsy, everything else truthy. -/
def jsonTruthy : Json → Bool
  | .null => false
  | .bool b => b
  | .num n => n != 0
  | .str s => s != ""
  | .arr xs => !xs.isEmpty
  | .obj fs => !fs.isEmpty

/-- The single-quote character Python's `repr` uses around strings. -/
def sq : String := String.singleton (Char.ofNat 39)

mutual

/-- Python `repr()` of a parsed JSON value (used by `str()` for elements
nested inside lists/dicts). Escaping subtleties inside quoted strings are
out of scope; no claim depends on them. -/
def pyRepr : Json → String
  | .null => "None"
  | .bool true => "True"
  | .bool false => "False"
  | .num n => toString n
  | .str s => sq ++ s ++ sq
  | .arr xs => "[" ++ String.intercalate ", " (pyReprList xs) ++ "]"
  | .obj fs => "\x7b" ++ String.intercalate ", " (pyReprFields fs) ++ "\x7d"

def pyReprList : List Json → List String
  | [] => []
  | x :: xs => pyRepr x :: pyReprList xs

def pyReprFields : List (String × Json) → List String
  | [] => []
  | (k, v) :: fs => (sq ++ k ++ sq ++ ": " ++ pyRepr v) :: pyReprFields fs

end

/-- Python `str()` of a parsed JSON value, as applied by f-string
interpolation: strings render as themselves, other values as their repr. -/
def pyStr : Json → String
  | .str s => s
  | j => pyRepr j

/-- Outcome of Python's `json.loads` on the validator's raw LLM response:
either a parsed value or a `json.JSONDecodeError` with its message. -/
inductive RawParse where
  | ok (j : Json)
  | decodeError (msg : String)

/-- Markdown-fence stripping in `validate_document_structure`
(structure_validator_agent.py lines 75-76): when the stripped response
starts with three backticks + "json" and ends with three backticks, slice
them off and strip whitespace again. -/
def stripJsonFences (s : String) : String :=
  if s.startsWith ("```" ++ "json") && s.endsWith "```" then
    ((s.drop 7).dropRight 3).trim
  else s

/-- The fail-closed verdict built in the `json.JSONDecodeError` branch
(structure_validator_agent.py lines 97-105). -/
def malformedVerdict (msg report_str : String) : Json :=
  .obj [
    ("rule_evaluations", .arr []),
    ("has_critical_errors", .bool true),
    ("critical_error_reason", .str ("Validation agent produced malformed JSON output: "
        ++ msg ++ ". Raw output: " ++ report_str.take 200 ++ "...")),
    ("report_text", .str ("Structural Validation Failed: Malformed response from agent. "
        ++ msg ++ ". Raw output: " ++ report_str.take 200 ++ "..."))]

/-- The fail-closed verdict built in the generic `except Exception` branch
(structure_validator_agent.py lines 106-113); `msg` is the rendered
exception. -/
def unexpectedVerdict (msg : String) : Json :=
  .obj [
    ("rule_evaluations", .arr []),
    ("has_critical_errors", .bool true),
    ("critical_error_reason", .str ("Unexpected error during validation: " ++ msg)),
    ("report_text", .str ("Structural Validation Failed: Unexpected error. " ++ msg))]

/-- Python iteration over the value of `validation_data.get('rule_evaluations', [])`:
lists iterate their elements, strings iterate their characters (as 1-char
strings), dicts iterate their keys; other values raise `TypeError`
(`none`). -/
def iterElems : Json → Option (List Json)
  | .arr xs => some xs
  | .str s => some (s.data.map fun c => Json.str (String.singleton c))
  | .obj fs => some (fs.map fun p => Json.str p.1)
  | _ => none

/-- One iteration of the rule-evaluation rendering loop
(structure_validator_agent.py lines 84-88): the element must be a dict
(otherwise `eval.get` raises `AttributeError`, `none`); renders
"- Rule <id>: <status>[ - <explanation>]\n" with `dict.get` defaults of
`None` and Python truthiness on the explanation. -/
def evalLine : Json → Option String
  | .obj fs =>
      some ("- Rule " ++ pyStr ((getField fs "id").getD .null) ++ ": "
        ++ pyStr ((getField fs "status").getD .null)
        ++ (if jsonTruthy ((getField fs "explanation").getD .null) then
              " - " ++ pyStr ((getField fs "explanation").getD .null)
            else "")
        ++ "\n")
  | _ => none

/-- The successful-parse body of the `try` block
(structure_validator_agent.py lines 79-95) applied to a parsed dict:
sets `report_text`, renders every rule evaluation, appends the
critical-errors trailer chosen by the truthiness of
`has_critical_errors`. `none` models an exception escaping to the
generic `except` branch. -/
def buildSuccess (fs : List (String × Json)) : Option (List (String × Json)) :=
  match iterElems ((getField fs "rule_evaluations").getD (.arr [])) with
  | none => none
  | some items =>
    match items.mapM evalLine with
    | none => none
    | some lines =>
      let base := "Structural Validation Report:\n" ++ String.join lines
      let rt :=
        if jsonTruthy ((getField fs "has_critical_errors").getD .null) then
          base ++ "\nCRITICAL ERRORS DETECTED: "
            ++ pyStr ((getField fs "critical_error_reason").getD (.str "Reason not provided."))
            ++ "\n"
        else
          base ++ "\nNo critical structural errors detected.\n"
      some (setField fs "report_text" (.str rt))

/-- `StructureValidatorAgent.validate_document_structure` after the LLM
call (structure_validator_agent.py lines 71-113). `report_str` is the
fence-stripped raw response, `parse` the outcome of `json.loads` on it.
Every branch returns a JSON object (serialized by `json.dumps` in the
source); no exception propagates. A parsed non-dict value makes the item
assignment `validation_data['report_text'] = ...` raise `TypeError`,
caught by the generic `except`; an exception inside the rendering loop is
likewise caught there. The nominal exception texts stand for the
Python-runtime messages interpolated at `f"...{e}"`. -/
def validate_document_structure (report_str : String) (parse : RawParse) : Json :=
  match parse with
  | .decodeError e => malformedVerdict e report_str
  | .ok (.obj fs) =>
    match buildSuccess fs with
    | some fields => .obj fields
    | none => unexpectedVerdict "TypeError raised while rendering rule evaluations"
  | .ok _ => unexpectedVerdict "TypeError: object does not support item assignment"

/-- Decides whether `validate_document_structure` answers through one of
its two fail-closed exception branches (rather than the successful-parse
path). -/
def errorPath : RawParse → Bool
  | .decodeError _ => true
  | .ok (.obj fs) => (buildSuccess fs).isNone
  | .ok _ => true

/-- `LeadReviewerAgent.consolidate_all_reports`
(lead_reviewer_agent.py lines 29-63): builds `report_details` (Python
truthiness of `other_reports_summary` is string non-emptiness) and passes
it as the messages of the consolidation LLM call; the generation service
is the external collaborator `gen`, and the returned report is its
output. -/
def consolidate_all_reports (gen : String → String)
    (structural_report : String) (other_reports_summary : String) : String :=
  let report_details :=
    "Structural Review:\n" ++ structural_report ++ "\n\n" ++
    (if other_reports_summary = "" then
       "Detailed reviews were not performed or results were not available.\n"
     else
       "Detailed Reviews Summary:\n" ++ other_reports_summary ++ "\n")
  gen report_details

/-- One collaborator invocation made by the orchestrator in `main`
(main.py): document processing/summarization, structural validation,
security review (`review_document_security`), or report consolidation
with its two arguments. -/
inductive Event where
  | processDoc (path : String)
  | validate (summary : String)
  | securityReview (summary : String)
  | consolidate (structural other : String)

/-- The run environment of one orchestration: the configuration check
outcome, the document path and its existence, and the behaviour of each
external collaborator. `validatorLoads` is the outcome of `json.loads`
applied (main.py line 147) to the string the validator agent returned;
`security` is the security reviewer finishing with a report or raising;
`gen` is the consolidation LLM. -/
structure Env where
  configOk : Bool
  docPath : String
  docExists : Bool
  summary : String
  validatorLoads : Except String Json
  security : Except String String
  gen : String → String

/-- Observable outcome of one orchestration run: the collaborator
invocations in order, the final report if one was produced, and the
failure (early-return message or uncaught exception) otherwise. -/
structure RunResult where
  events : List Event
  finalReport : Option String
  failure : Option String

/-- The consolidator invocations of a run, in order, with their
(structural, other) arguments. -/
def RunResult.consolidations (r : RunResult) : List (String × String) :=
  r.events.filterMap fun e =>
    match e with
    | .consolidate a b => some (a, b)
    | _ => none

/-- The orchestration control flow of `main` (main.py lines 24-188).
Environment-variable check (line 44) and document-existence check
(line 106) return early. Then: summarize (line 139), validate and
`json.loads` its result (lines 146-147) — a decode error is an uncaught
exception; `.get` on a parsed non-dict raises `AttributeError`.
`report_text` and `has_critical_errors` are read with `dict.get`
defaults (lines 148-149), the branch tests Python truthiness of
`has_critical_errors`. Critical branch (lines 154-160): build the halt
notice and consolidate. Otherwise (lines 161-184): launch the security
review (`asyncio.gather` of the single task — an exception propagates
uncaught), then consolidate with the labelled security report. `pyStr`
renders a value where Python f-strings would. -/
def main (env : Env) : RunResult :=
  if !env.configOk then
    { events := [], finalReport := none,
      failure := some "Error: Missing one or more environment variables. Please check your .env file." }
  else if !env.docExists then
    { events := [], finalReport := none,
      failure := some ("Error: Sample document not found at " ++ env.docPath) }
  else
    let ev0 := [Event.processDoc env.docPath, Event.validate env.summary]
    match env.validatorLoads with
    | .error e =>
        { events := ev0, finalReport := none,
          failure := some ("json.JSONDecodeError: " ++ e) }
    | .ok (.obj fs) =>
        let structural_report_text :=
          pyStr ((getField fs "report_text").getD (.str "No structural report text."))
        let has_critical_errors :=
          jsonTruthy ((getField fs "has_critical_errors").getD (.bool false))
        if has_critical_errors then
          let final_report_summary :=
            "Architecture review halted due to critical structural errors:\n"
              ++ pyStr ((getField fs "critical_error_reason").getD (.str "Reason not specified."))
          let other :=
            "No further detailed reviews performed due to critical structural errors. "
              ++ final_report_summary
          { events := ev0 ++ [Event.consolidate structural_report_text other],
            finalReport := some (consolidate_all_reports env.gen structural_report_text other),
            failure := none }
        else
          match env.security with
          | .error e =>
              { events := ev0 ++ [Event.securityReview env.summary],
                finalReport := none, failure := some e }
          | .ok s =>
              let other := "Security Review Report:\n" ++ s
              { events := ev0 ++ [Event.securityReview env.summary,
                  Event.consolidate structural_report_text other],
                finalReport := some (consolidate_all_reports env.gen structural_report_text other),
                failure := none }
    | .ok _ =>
        { events := ev0, finalReport := none,
          failure := some "AttributeError: parsed validation result does not support get" }

/-- Substring relation on strings, by their character lists. -/
def strContains (hay needle : String) : Prop :=
  ∃ s t : List Char, s ++ needle.data ++ t = hay.data

/-- Field lookup on a JSON value; `none` when the value is not an object
or lacks the key. -/
def jsonGet : Json → String → Option Json
  | .obj fs, k => getField fs k
  | _, _ => none

/-- Scenario: configuration and document present, critical structural
errors reported by the validator. -/
def c1Env : Env :=
  { configOk := true, docPath := "test_data/arb.pdf", docExists := true,
    summary := "design summary",
    validatorLoads := .ok (.obj [("report_text", .str "structural report"),
      ("has_critical_errors", .bool true),
      ("critical_error_reason", .str "missing sections")]),
    security := .ok "security findings", gen := fun x => x }

/-- Scenario: parsed validator output that is not a well-formed verdict —
the `has_critical_errors` field is absent. -/
def c2Env : Env :=
  { configOk := true, docPath := "test_data/arb.pdf", docExists := true,
    summary := "design summary",
    validatorLoads := .ok (.obj [("report_text", .str "structural report")]),
    security := .ok "security findings", gen := fun x => x }

/-- Scenario: the validator's raw LLM response was unparseable, so the
orchestrator receives the validator's own fail-closed verdict. -/
def c2wEnv : Env :=
  { configOk := true, docPath := "test_data/arb.pdf", docExists := true,
    summary := "design summary",
    validatorLoads :=
      .ok (validate_document_structure "not json" (.decodeError "Expecting value")),
    security := .ok "security findings", gen := fun x => x }

/-- Scenario: no critical errors, but the security review fails
(`asyncio.gather` re-raises the task's exception). -/
def c4Env : Env :=
  { configOk := true, docPath := "test_data/arb.pdf", docExists := true,
    summary := "design summary",
    validatorLoads := .ok (.obj [("report_text", .str "structural report"),
      ("has_critical_errors", .bool false)]),
    security := .error "Security review timed out", gen := fun x => x }

/-- Scenario: the input document path does not exist. -/
def c5Env : Env :=
  { configOk := true, docPath := "test_data/arb.pdf", docExists := false,
    summary := "design summary",
    validatorLoads := .ok (.obj [("report_text", .str "structural report"),
      ("has_critical_errors", .bool false)]),
    security := .ok "security findings", gen := fun x => x }

/-- Scenario: no critical errors, successful security review, identity
generation service. -/
def c6Env : Env :=
  { configOk := true, docPath := "test_data/arb.pdf", docExists := true,
    summary := "design summary",
    validatorLoads := .ok (.obj [("report_text", .str "structural report"),
      ("has_critical_errors", .bool false)]),
    security := .ok "security findings", gen := fun x => x }

/-- Scenario: critical structural errors, for the consolidation-argument
check. -/
def c7Env : Env :=
  { configOk := true, docPath := "test_data/arb.pdf", docExists := true,
    summary := "design summary",
    validatorLoads := .ok (.obj [("report_text", .str "structural report"),
      ("has_critical_errors", .bool true),
      ("critical_error_reason", .str "missing sections")]),
    security := .ok "security findings", gen := fun x => x }

lemma strContains_appendSandwich (a b c : String) : strContains (a ++ b ++ c) b :=
  ⟨a.data, c.data, by simp [String.data_append]⟩

lemma strContains_refl (a : String) : strContains a a :=
  ⟨[], [], by simp⟩

lemma strContains_mono {hay mid needle : String}
    (h1 : strContains hay mid) (h2 : strContains mid needle) :
    strContains hay needle := by
  obtain ⟨s1, t1, e1⟩ := h1
  obtain ⟨s2, t2, e2⟩ := h2
  exact ⟨s1 ++ s2, t2 ++ t1, by rw [← e1, ← e2]; simp⟩

lemma append_ne_empty_left (a b : String) (h : a.length ≠ 0) : a ++ b ≠ "" := by
  intro he
  have hl : (a ++ b).length = 0 := by rw [he]; rfl
  rw [String.length_append] at hl
  omega

lemma getField_setField_self (fs : List (String × Json)) (k : String) (v : Json) :
    getField (setField fs k v) k = some v := by
  induction fs with
  | nil => simp [setField, getField]
  | cons p fs ih =>
      by_cases h : p.1 = k
      · simp [setField, getField, h]
      · simp [setField, getField, h, ih]

lemma buildSuccess_shape (fs fields : List (String × Json))
    (h : buildSuccess fs = some fields) :
    ∃ rt, fields = setField fs "report_text" (.str rt) := by
  unfold buildSuccess at h
  split at h
  · exact absurd h (by simp)
  · split at h
    · exact absurd h (by simp)
    · exact ⟨_, (Option.some.inj h).symm⟩

/-- C3: a raw validator response that is not parseable as JSON makes
`validate_document_structure` return — not raise — the fail-closed
verdict object: `has_critical_errors = true` with a
`critical_error_reason` that contains the word "malformed". -/
theorem c3_malformed_parse_fails_closed (report_str msg : String) :
    validate_document_structure report_str (.decodeError msg) =
      .obj [("rule_evaluations", .arr []),
            ("has_critical_errors", .bool true),
            ("critical_error_reason", .str ("Validation agent produced malformed JSON output: "
               ++ msg ++ ". Raw output: " ++ report_str.take 200 ++ "...")),
            ("report_text", .str ("Structural Validation Failed: Malformed response from agent. "
               ++ msg ++ ". Raw output: " ++ report_str.take 200 ++ "..."))] ∧
    strContains ("Validation agent produced malformed JSON output: "
        ++ msg ++ ". Raw output: " ++ report_str.take 200 ++ "...") "malformed" := by
  refine ⟨rfl, ?_⟩
  have e1 : ("Validation agent produced malformed JSON output: " : String)
      = "Validation agent produced " ++ "malformed" ++ " JSON output: " := rfl
  rw [e1, String.append_assoc, String.append_assoc, String.append_assoc,
    String.append_assoc]
  exact strContains_appendSandwich _ _ _

/-- C8 counterexample: the success branch passes the evaluator's fields
through, so a parsed verdict `\x7b"has_critical_errors": true\x7d` without a
reason yields an output verdict with `has_critical_errors = true` and no
`critical_error_reason` at all — refuting the invariant as stated. -/
theorem c8_counterexample :
    validate_document_structure "x" (.ok (.obj [("has_critical_errors", .bool true)])) =
      .obj [("has_critical_errors", .bool true),
            ("report_text", .str "Structural Validation Report:\n\nCRITICAL ERRORS DETECTED: Reason not provided.\n")] ∧
    jsonGet (validate_document_structure "x"
        (.ok (.obj [("has_critical_errors", .bool true)]))) "critical_error_reason" = none :=
  ⟨rfl, rfl⟩

/-- C8 (amended): every verdict produced by one of the validator's
fail-closed error branches (JSON decode error, or an exception on the
successful-parse path) has `has_critical_errors = true` and a present,
non-empty `critical_error_reason`; the success branch merely passes the
evaluator's own fields through. -/
theorem c8_amended_error_branch_reason_nonempty (report_str : String) (parse : RawParse)
    (h : errorPath parse = true) :
    ∃ fs r, validate_document_structure report_str parse = .obj fs ∧
      getField fs "has_critical_errors" = some (.bool true) ∧
      getField fs "critical_error_reason" = some (.str r) ∧ r ≠ "" := by
  match parse with
  | .decodeError e =>
      refine ⟨_, _, rfl, rfl, rfl, ?_⟩
      rw [String.append_assoc, String.append_assoc, String.append_assoc]
      exact append_ne_empty_left _ _ (by decide)
  | .ok (.obj fs) =>
      have hb : buildSuccess fs = none := by
        simpa [errorPath, Option.isNone_iff_eq_none] using h
      have hv : validate_document_structure report_str (.ok (.obj fs)) =
          unexpectedVerdict "TypeError raised while rendering rule evaluations" := by
        simp [validate_document_structure, hb]
      rw [unexpectedVerdict] at hv
      exact ⟨_, _, hv, rfl, rfl, by decide⟩
  | .ok .null => exact ⟨_, _, rfl, rfl, rfl, by decide⟩
  | .ok (.bool b) => exact ⟨_, _, rfl, rfl, rfl, by decide⟩
  | .ok (.num n) => exact ⟨_, _, rfl, rfl, rfl, by decide⟩
  | .ok (.str s) => exact ⟨_, _, rfl, rfl, rfl, by decide⟩
  | .ok (.arr xs) => exact ⟨_, _, rfl, rfl, rfl, by decide⟩

/-- C8 amended, witnessed at a concrete malformed response. -/
theorem c8_amended_witness :
    ∃ fs r, validate_document_structure "not json" (.decodeError "Expecting value") = .obj fs ∧
      getField fs "has_critical_errors" = some (.bool true) ∧
      getField fs "critical_error_reason" = some (.str r) ∧ r ≠ "" :=
  c8_amended_error_branch_reason_nonempty "not json" (.decodeError "Expecting value") rfl

/-- C10 counterexample: on the success branch the validator only adds
`report_text`; parsing the well-formed response `\x7b\x7d` yields an output
object with neither `rule_evaluations` nor `has_critical_errors` —
refuting the claim that every return path carries all three keys. -/
theorem c10_counterexample :
    validate_document_structure "x" (.ok (.obj [])) =
      .obj [("report_text", .str "Structural Validation Report:\n\nNo critical structural errors detected.\n")] ∧
    jsonGet (validate_document_structure "x" (.ok (.obj []))) "rule_evaluations" = none ∧
    jsonGet (validate_document_structure "x" (.ok (.obj []))) "has_critical_errors" = none :=
  ⟨rfl, rfl, rfl⟩

/-- C10 (amended): `validate_document_structure` is total over its
branches and always returns a JSON object containing `report_text`; on
its two error branches the object also contains `rule_evaluations` (the
empty list) and `has_critical_errors = true` with a reason, while the
success branch returns the parsed object with `report_text` set. -/
theorem c10_amended_validator_total (report_str : String) (parse : RawParse) :
    ∃ fs, validate_document_structure report_str parse = .obj fs ∧
      (getField fs "report_text").isSome ∧
      (errorPath parse = true →
        getField fs "rule_evaluations" = some (.arr []) ∧
        getField fs "has_critical_errors" = some (.bool true) ∧
        (getField fs "critical_error_reason").isSome) := by
  match parse with
  | .decodeError e => exact ⟨_, rfl, rfl, fun _ => ⟨rfl, rfl, rfl⟩⟩
  | .ok (.obj fs) =>
      cases hb : buildSuccess fs with
      | none =>
          have hv : validate_document_structure report_str (.ok (.obj fs)) =
              unexpectedVerdict "TypeError raised while rendering rule evaluations" := by
            simp [validate_document_structure, hb]
          rw [unexpectedVerdict] at hv
          exact ⟨_, hv, rfl, fun _ => ⟨rfl, rfl, rfl⟩⟩
      | some fields =>
          obtain ⟨rt, hrt⟩ := buildSuccess_shape fs fields hb
          refine ⟨fields, ?_, ?_, ?_⟩
          · simp [validate_document_structure, hb]
          · rw [hrt, getField_setField_self]; rfl
          · intro hep
            rw [errorPath, hb] at hep
            exact absurd hep (by simp)
  | .ok .null => exact ⟨_, rfl, rfl, fun _ => ⟨rfl, rfl, rfl⟩⟩
  | .ok (.bool b) => exact ⟨_, rfl, rfl, fun _ => ⟨rfl, rfl, rfl⟩⟩
  | .ok (.num n) => exact ⟨_, rfl, rfl, fun _ => ⟨rfl, rfl, rfl⟩⟩
  | .ok (.str s) => exact ⟨_, rfl, rfl, fun _ => ⟨rfl, rfl, rfl⟩⟩
  | .ok (.arr xs) => exact ⟨_, rfl, rfl, fun _ => ⟨rfl, rfl, rfl⟩⟩

/-- C10 amended, witnessed at a concrete decode failure. -/
theorem c10_amended_witness :
    ∃ fs, validate_document_structure "oops" (.decodeError "Expecting value") = .obj fs ∧
      (getField fs "report_text").isSome ∧
      (errorPath (.decodeError "Expecting value") = true →
        getField fs "rule_evaluations" = some (.arr []) ∧
        getField fs "has_critical_errors" = some (.bool true) ∧
        (getField fs "critical_error_reason").isSome) :=
  c10_amended_validator_total "oops" (.decodeError "Expecting value")

/-- C1: when the structural verdict carries `has_critical_errors = true`,
the run's trace is exactly summarization, validation, and one
consolidation — the security reviewer (and any other detailed-review
collaborator) is never invoked. -/
theorem c1_critical_skips_detailed_reviews (env : Env) (fs : List (String × Json))
    (hcfg : env.configOk = true) (hdoc : env.docExists = true)
    (hload : env.validatorLoads = .ok (.obj fs))
    (hcrit : getField fs "has_critical_errors" = some (.bool true)) :
    (main env).events =
      [Event.processDoc env.docPath, Event.validate env.summary,
       Event.consolidate
         (pyStr ((getField fs "report_text").getD (.str "No structural report text.")))
         ("No further detailed reviews performed due to critical structural errors. "
           ++ ("Architecture review halted due to critical structural errors:\n"
             ++ pyStr ((getField fs "critical_error_reason").getD (.str "Reason not specified."))))] ∧
    ∀ s, Event.securityReview s ∉ (main env).events := by
  obtain ⟨cfg, path, dex, sum, vl, sec, g⟩ := env
  simp only at hcfg hdoc hload
  subst hcfg hdoc hload
  constructor
  · simp [main, hcrit, jsonTruthy]
  · intro s
    simp [main, hcrit, jsonTruthy]

/-- C1, witnessed on a concrete critical-errors run. -/
theorem c1_witness :
    (main c1Env).events =
      [Event.processDoc "test_data/arb.pdf", Event.validate "design summary",
       Event.consolidate "structural report"
         "No further detailed reviews performed due to critical structural errors. Architecture review halted due to critical structural errors:\nmissing sections"] ∧
    ∀ s, Event.securityReview s ∉ (main c1Env).events :=
  c1_critical_skips_detailed_reviews c1Env
    [("report_text", .str "structural report"), ("has_critical_errors", .bool true),
     ("critical_error_reason", .str "missing sections")] rfl rfl rfl rfl

/-- C2 counterexample: a parsed validator output lacking
`has_critical_errors` is not a well-formed verdict, but the orchestrator
defaults the absent flag to `False` (main.py line 149) and proceeds with
the detailed security review — the run is not treated as critical and is
not halted. -/
theorem c2_counterexample :
    (main c2Env).events =
      [Event.processDoc "test_data/arb.pdf", Event.validate "design summary",
       Event.securityReview "design summary",
       Event.consolidate "structural report" "Security Review Report:\nsecurity findings"] ∧
    (main c2Env).failure = none :=
  ⟨rfl, rfl⟩

/-- C2 (amended): the fail-closed policy lives in the validator, not the
orchestrator: when the validator's raw LLM response is unparseable, the
verdict string the orchestrator receives is the validator's fail-closed
object, so the run halts detailed review and consolidates with a halt
notice embedding the malformed-output reason. (The orchestrator itself
defaults an absent `has_critical_errors` to `False` and proceeds, and an
unparseable validator return string would raise uncaught at
`json.loads`.) -/
theorem c2_amended_failclosed_via_validator (env : Env) (raw msg : String)
    (hcfg : env.configOk = true) (hdoc : env.docExists = true)
    (hload : env.validatorLoads = .ok (validate_document_structure raw (.decodeError msg))) :
    (∀ s, Event.securityReview s ∉ (main env).events) ∧
    (main env).consolidations =
      [("Structural Validation Failed: Malformed response from agent. " ++ msg
          ++ ". Raw output: " ++ raw.take 200 ++ "...",
        "No further detailed reviews performed due to critical structural errors. "
          ++ ("Architecture review halted due to critical structural errors:\n"
            ++ ("Validation agent produced malformed JSON output: " ++ msg
              ++ ". Raw output: " ++ raw.take 200 ++ "...")))] := by
  obtain ⟨cfg, path, dex, sum, vl, sec, g⟩ := env
  simp only at hcfg hdoc hload
  subst hcfg hdoc hload
  constructor
  · intro s
    simp [main, validate_document_structure, malformedVerdict, getField,
      jsonTruthy, pyStr]
  · simp [main, RunResult.consolidations, validate_document_structure,
      malformedVerdict, getField, jsonTruthy, pyStr]

set_option maxRecDepth 4096 in
/-- C2 amended, witnessed on a concrete unparseable raw response. -/
theorem c2_amended_witness :
    (∀ s, Event.securityReview s ∉ (main c2wEnv).events) ∧
    (main c2wEnv).consolidations =
      [("Structural Validation Failed: Malformed response from agent. Expecting value. Raw output: not json...",
        "No further detailed reviews performed due to critical structural errors. Architecture review halted due to critical structural errors:\nValidation agent produced malformed JSON output: Expecting value. Raw output: not json...")] :=
  c2_amended_failclosed_via_validator c2wEnv "not json" "Expecting value" rfl rfl rfl

/-- C4 counterexample: in the no-critical-errors branch a failing
security review is not recovered — `asyncio.gather` re-raises, the run
produces no FinalReport, no consolidation happens, and no
"review unavailable" placeholder exists anywhere in the code. -/
theorem c4_counterexample :
    (main c4Env).finalReport = none ∧
    (main c4Env).failure = some "Security review timed out" ∧
    (main c4Env).consolidations = [] :=
  ⟨rfl, rfl, rfl⟩

/-- C4 (amended): when a detailed-review collaborator fails in the
no-critical-errors branch, its exception propagates out of
`asyncio.gather` uncaught: the run aborts after the security-review
launch with no consolidation, no FinalReport, and no placeholder
substitution. -/
theorem c4_amended_review_failure_aborts (env : Env) (fs : List (String × Json)) (e : String)
    (hcfg : env.configOk = true) (hdoc : env.docExists = true)
    (hload : env.validatorLoads = .ok (.obj fs))
    (hnc : getField fs "has_critical_errors" = some (.bool false))
    (hsec : env.security = .error e) :
    (main env).finalReport = none ∧ (main env).failure = some e ∧
    (main env).consolidations = [] ∧
    (main env).events =
      [Event.processDoc env.docPath, Event.validate env.summary,
       Event.securityReview env.summary] := by
  obtain ⟨cfg, path, dex, sum, vl, sec, g⟩ := env
  simp only at hcfg hdoc hload hsec
  subst hcfg hdoc hload hsec
  refine ⟨?_, ?_, ?_, ?_⟩ <;>
    simp [main, RunResult.consolidations, hnc, jsonTruthy]

/-- C4 amended, witnessed on a concrete failing security review. -/
theorem c4_amended_witness :
    (main c4Env).finalReport = none ∧
    (main c4Env).failure = some "Security review timed out" ∧
    (main c4Env).consolidations = [] ∧
    (main c4Env).events =
      [Event.processDoc "test_data/arb.pdf", Event.validate "design summary",
       Event.securityReview "design summary"] :=
  c4_amended_review_failure_aborts c4Env
    [("report_text", .str "structural report"), ("has_critical_errors", .bool false)]
    "Security review timed out" rfl rfl rfl rfl rfl

/-- C5: when the document path does not exist, the run returns before any
collaborator is invoked — the trace is empty (validator and reviewer call
counts are zero), no FinalReport is produced, and the failure is the
document-not-found message. -/
theorem c5_missing_document_aborts (env : Env)
    (hcfg : env.configOk = true) (hdoc : env.docExists = false) :
    (main env).events = [] ∧ (main env).finalReport = none ∧
    (main env).failure = some ("Error: Sample document not found at " ++ env.docPath) := by
  obtain ⟨cfg, path, dex, sum, vl, sec, g⟩ := env
  simp only at hcfg hdoc
  subst hcfg hdoc
  exact ⟨rfl, rfl, rfl⟩

/-- C5, witnessed on a concrete missing document. -/
theorem c5_witness :
    (main c5Env).events = [] ∧ (main c5Env).finalReport = none ∧
    (main c5Env).failure = some "Error: Sample document not found at test_data/arb.pdf" :=
  c5_missing_document_aborts c5Env rfl rfl

/-- C6: in the no-critical-errors branch, the consolidator receives the
labelled outputs of the detailed-review collaborators assembled in launch
order — here the single security review, labelled
"Security Review Report:" — and, whenever the generation service's output
contains its input, the FinalReport contains that labelled review. -/
theorem c6_final_report_contains_labeled_reviews (env : Env)
    (fs : List (String × Json)) (rt s : String)
    (hcfg : env.configOk = true) (hdoc : env.docExists = true)
    (hload : env.validatorLoads = .ok (.obj fs))
    (hnc : getField fs "has_critical_errors" = some (.bool false))
    (hrt : getField fs "report_text" = some (.str rt))
    (hsec : env.security = .ok s)
    (hgen : ∀ x, strContains (env.gen x) x) :
    (main env).consolidations = [(rt, "Security Review Report:\n" ++ s)] ∧
    ∃ rep, (main env).finalReport = some rep ∧
      strContains rep ("Security Review Report:\n" ++ s) := by
  obtain ⟨cfg, path, dex, sum, vl, sec, g⟩ := env
  simp only at hcfg hdoc hload hsec hgen
  subst hcfg hdoc hload hsec
  have hne : ("Security Review Report:\n" ++ s) ≠ "" :=
    append_ne_empty_left _ _ (by decide)
  constructor
  · simp [main, RunResult.consolidations, hnc, hrt, jsonTruthy, pyStr]
  · have h1 : strContains
        (g ("Structural Review:\n" ++ rt ++ "\n\n" ++
          ("Detailed Reviews Summary:\n" ++ ("Security Review Report:\n" ++ s) ++ "\n")))
        ("Security Review Report:\n" ++ s) :=
      strContains_mono (hgen _)
        ⟨("Structural Review:\n" ++ rt ++ "\n\n" ++ "Detailed Reviews Summary:\n").data,
         ("\n" : String).data, by simp [String.data_append]⟩
    refine ⟨_, ?_, h1⟩
    simp [main, consolidate_all_reports, hnc, hrt, jsonTruthy, pyStr, hne]

/-- C6, witnessed with the identity generation service. -/
theorem c6_witness :
    (main c6Env).consolidations =
      [("structural report", "Security Review Report:\n" ++ "security findings")] ∧
    ∃ rep, (main c6Env).finalReport = some rep ∧
      strContains rep ("Security Review Report:\n" ++ "security findings") :=
  c6_final_report_contains_labeled_reviews c6Env
    [("report_text", .str "structural report"), ("has_critical_errors", .bool false)]
    "structural report" "security findings" rfl rfl rfl rfl rfl rfl
    (fun x => strContains_refl x)

/-- C7: in the critical-errors branch the consolidator is called exactly
once, with the verdict's report text as the structural argument and with
the fixed prefix "No further detailed reviews performed due to critical
structural errors. " followed by the halt notice embedding
`critical_error_reason`. -/
theorem c7_critical_consolidation_args (env : Env)
    (fs : List (String × Json)) (rt reason : String)
    (hcfg : env.configOk = true) (hdoc : env.docExists = true)
    (hload : env.validatorLoads = .ok (.obj fs))
    (hcrit : getField fs "has_critical_errors" = some (.bool true))
    (hrt : getField fs "report_text" = some (.str rt))
    (hcr : getField fs "critical_error_reason" = some (.str reason)) :
    (main env).consolidations =
      [(rt, "No further detailed reviews performed due to critical structural errors. "
          ++ ("Architecture review halted due to critical structural errors:\n" ++ reason))] := by
  obtain ⟨cfg, path, dex, sum, vl, sec, g⟩ := env
  simp only at hcfg hdoc hload
  subst hcfg hdoc hload
  simp [main, RunResult.consolidations, hcrit, hrt, hcr, jsonTruthy, pyStr]

/-- C7, witnessed on a concrete critical-errors run. -/
theorem c7_witness :
    (main c7Env).consolidations =
      [("structural report",
        "No further detailed reviews performed due to critical structural errors. "
          ++ ("Architecture review halted due to critical structural errors:\n" ++ "missing sections"))] :=
  c7_critical_consolidation_args c7Env
    [("report_text", .str "structural report"), ("has_critical_errors", .bool true),
     ("critical_error_reason", .str "missing sections")]
    "structural report" "missing sections" rfl rfl rfl rfl rfl rfl

/-- C9: with a deterministic generation service, consolidation is a
function of its two report inputs — two calls on identical structural and
supplementary texts yield identical FinalReport content. -/
theorem c9_consolidation_deterministic (gen : String → String) (A B A2 B2 : String)
    (hA : A = A2) (hB : B = B2) :
    consolidate_all_reports gen A B = consolidate_all_reports gen A2 B2 := by
  rw [hA, hB]

/-- C9, witnessed on concrete report texts. -/
theorem c9_witness :
    consolidate_all_reports (fun x => x) "structural report" "security summary" =
      consolidate_all_reports (fun x => x) "structural report" "security summary" :=
  c9_consolidation_deterministic (fun x => x) "structural report" "security summary"
    "structural report" "security summary" rfl rfl

end ArchReview
